import Mathlib

/-!
Verification development for the OAuth authentication/session-management core
of the bluesky-playground repository.

The embedding covers:
* the in-memory key-value stores (`Map` set/get/delete as used by
  `createOAuthClient` in `src/lib/server/oauth.ts` and by `BlueskyOAuthService`
  in `src/lib/server/bluesky/oauth.ts`);
* the OAuth flow controller's callback handling (`completeAuthorization`);
* the `BlueskyOAuthService` methods `initiateLogin`, `handleCallback`,
  `getAuthenticatedAgent`, `hasValidSession`, `logout`, `getSessionStats`;
* the `BlueskyService` facade's cookie handling (`handleOAuthCallback` in
  `src/lib/server/bluesky/index.ts`);
* the root route's load function (`src/routes/+page.server.ts`).
-/

namespace Bsky

/-- A JavaScript `Map` with string keys, as used for the State Store and the
Session Store.  Keys are kept distinct, so `List.length` matches `Map.size`. -/
abbrev KVStore (α : Type) : Type := List (String × α)

/-- `Map.prototype.get`: the value stored under `k`, or `none` (JS `undefined`)
when the key is absent. -/
def storeGet {α : Type} (k : String) : KVStore α → Option α
  | [] => none
  | (k', v) :: rest => if k' = k then some v else storeGet k rest

/-- `Map.prototype.delete`: removes the entry under `k`; idempotent, no error
when the key is absent. -/
def storeDelete {α : Type} (k : String) : KVStore α → KVStore α
  | [] => []
  | (k', v) :: rest =>
      if k' = k then storeDelete k rest else (k', v) :: storeDelete k rest

/-- `Map.prototype.set`: stores `v` under `k`, overwriting any previous entry. -/
def storeSet {α : Type} (k : String) (v : α) (s : KVStore α) : KVStore α :=
  (k, v) :: storeDelete k s

/-- The short-lived authorization request state held in the State Store
(spec §3 AuthorizationRequestState): PKCE verifier material, requested scope,
creation timestamp.  The store key is the single-use request key. -/
structure AuthorizationRequestState where
  verifier : String
  scope : String
  createdAt : Nat
  deriving DecidableEq, Repr

/-- The two shared stores of the flow controller: the State Store (request key
to request state) and the Session Store (subject DID to opaque session blob).
The store operations themselves are the `Map` callbacks of
`createOAuthClient` (oauth.ts, stateStore/sessionStore). -/
structure FlowStores where
  stateStore : KVStore AuthorizationRequestState
  sessionStore : KVStore String
  deriving DecidableEq, Repr

/-- Query parameters of an OAuth callback URL, as read by the flow controller:
`error`, `code` and `state`, each possibly absent. -/
structure CallbackParams where
  error : Option String
  code : Option String
  state : Option String
  deriving DecidableEq, Repr

/-- Error kinds of the flow controller (spec §7, kinds not concrete names). -/
inductive FlowError where
  | authorizationDenied (code : String)
  | missingCode
  | invalidState
  | tokenExchange (message : String)
  deriving DecidableEq, Repr

/-- Outcome of a successful code-for-token exchange: the subject identifier
and the opaque session blob written to the Session Store. -/
structure ExchangeSuccess where
  sub : String
  sessionData : String
  deriving DecidableEq, Repr

/-- Modelled from the spec: the state validation, error-parameter handling and
code exchange of `completeAuthorization` (spec §4.3) are performed inside
`@atproto/oauth-client-node`'s `callback`, which is not part of this
repository; only the store callbacks are (`createOAuthClient`, oauth.ts).
Steps, following §4.3 and the §8 testable properties:
fails `authorizationDenied` when the callback carries an explicit error
parameter, consuming the matching state entry (§8: the entry is not left
dangling); fails `missingCode` when neither code nor error is present; looks
up the state key and fails `invalidState` when it is absent or already
consumed, deleting the entry on success (single-use enforced there); then
exchanges the code (outcome abstracted as the `exchange` argument, wrapped as
`tokenExchange` on failure) and on success writes the Session Store entry for
the subject.  Store reads and writes use the `Map` semantics of the source's
store callbacks. -/
def completeAuthorization (params : CallbackParams)
    (exchange : Except String ExchangeSuccess) (stores : FlowStores) :
    Except FlowError String × FlowStores :=
  match params.error with
  | some e =>
      let stores' :=
        match params.state with
        | some k => { stores with stateStore := storeDelete k stores.stateStore }
        | none => stores
      (Except.error (FlowError.authorizationDenied e), stores')
  | none =>
      match params.code with
      | none => (Except.error FlowError.missingCode, stores)
      | some _ =>
          match params.state with
          | none => (Except.error FlowError.invalidState, stores)
          | some k =>
              match storeGet k stores.stateStore with
              | none => (Except.error FlowError.invalidState, stores)
              | some _ =>
                  let stores₁ :=
                    { stores with stateStore := storeDelete k stores.stateStore }
                  match exchange with
                  | Except.error m =>
                      (Except.error (FlowError.tokenExchange m), stores₁)
                  | Except.ok r =>
                      (Except.ok r.sub,
                       { stores₁ with
                           sessionStore :=
                             storeSet r.sub r.sessionData stores₁.sessionStore })

/-- Demo request state used by witnesses. -/
def demoReqState : AuthorizationRequestState :=
  { verifier := "pkce-verifier", scope := "atproto transition:generic", createdAt := 0 }

/-- Demo stores holding one pending request key. -/
def demoStores : FlowStores :=
  { stateStore := [("state-123", demoReqState)], sessionStore := [] }

/-!
The `BlueskyOAuthService` of `src/lib/server/bluesky/oauth.ts` (the file is
embedded after the unit tests in
`src/lib/server/bluesky/__tests__/oauth.test.ts`).  The service owns two
private `Map`s, `stateStore` and `sessionStore`, and hands `NodeOAuthClient`
a `stateStore` and a `sessionStore` callbacks object literal whose methods
read and write `this.stateStore` / `this.sessionStore`.  In JavaScript,
`this` inside a shorthand method of an object literal is the receiver of the
call, i.e. the callbacks object itself, not the enclosing service instance;
the callbacks object has only the own properties `set`, `get` and `del`, so
`this.stateStore` and `this.sessionStore` evaluate to `undefined` and the
subsequent member call throws a `TypeError`.  The definitions below embed
exactly that mechanism: a property lookup over the literal's own property
names, with a member call on a missing property producing the error.
-/

/-- Private state of a `BlueskyOAuthService` instance: its own two `Map`s
(oauth.ts, `private readonly stateStore = new Map()`,
`private readonly sessionStore = new Map()`). -/
structure ServiceState where
  stateStore : KVStore String
  sessionStore : KVStore String
  deriving DecidableEq, Repr

/-- Constructor state: both `Map`s start empty. -/
def initialServiceState : ServiceState := { stateStore := [], sessionStore := [] }

/-- Own property names of the `stateStore` callbacks object literal passed to
`NodeOAuthClient` (oauth.ts): exactly the three methods. -/
def stateStoreCallbackProps : List String := ["set", "get", "del"]

/-- Own property names of the `sessionStore` callbacks object literal passed
to `NodeOAuthClient` (oauth.ts): exactly the three methods. -/
def sessionStoreCallbackProps : List String := ["set", "get", "del"]

/-- JavaScript property access `this.p` where `this` is an object with the
given own property names: `none` models the `undefined` result for a missing
property. -/
def jsProp (props : List String) (p : String) : Option String :=
  if p ∈ props then some p else none

/-- Message of the `TypeError` raised by a member call on `undefined`. -/
def typeErrorUndefined (member : String) : String :=
  "TypeError: Cannot read properties of undefined (reading " ++ member ++ ")"

/-- The `set` method of the client's `stateStore` callbacks: its body is
`this.stateStore.set(key, internalState)`.  The lookup of `stateStore` on the
callbacks object yields `undefined`, so the call throws; the `some` branch
records the write the author intended (into the service map) and is
unreachable because the property is absent. -/
def clientStateStoreSet (key internalState : String) (svc : ServiceState) :
    Except String ServiceState :=
  match jsProp stateStoreCallbackProps "stateStore" with
  | none => Except.error (typeErrorUndefined "set")
  | some _ =>
      Except.ok { svc with stateStore := storeSet key internalState svc.stateStore }

/-- The `get` method of the client's `stateStore` callbacks: body
`this.stateStore.get(key)`; same unbound `this` as `clientStateStoreSet`. -/
def clientStateStoreGet (key : String) (svc : ServiceState) :
    Except String (Option String) :=
  match jsProp stateStoreCallbackProps "stateStore" with
  | none => Except.error (typeErrorUndefined "get")
  | some _ => Except.ok (storeGet key svc.stateStore)

/-- The `del` method of the client's `stateStore` callbacks: body
`this.stateStore.delete(key)`; same unbound `this`. -/
def clientStateStoreDel (key : String) (svc : ServiceState) :
    Except String ServiceState :=
  match jsProp stateStoreCallbackProps "stateStore" with
  | none => Except.error (typeErrorUndefined "delete")
  | some _ =>
      Except.ok { svc with stateStore := storeDelete key svc.stateStore }

/-- The `set` method of the client's `sessionStore` callbacks: body
`this.sessionStore.set(sub, session)`; same unbound `this`. -/
def clientSessionStoreSet (sub session : String) (svc : ServiceState) :
    Except String ServiceState :=
  match jsProp sessionStoreCallbackProps "sessionStore" with
  | none => Except.error (typeErrorUndefined "set")
  | some _ =>
      Except.ok { svc with sessionStore := storeSet sub session svc.sessionStore }

/-- The `get` method of the client's `sessionStore` callbacks: body
`this.sessionStore.get(sub)`; same unbound `this`. -/
def clientSessionStoreGet (sub : String) (svc : ServiceState) :
    Except String (Option String) :=
  match jsProp sessionStoreCallbackProps "sessionStore" with
  | none => Except.error (typeErrorUndefined "get")
  | some _ => Except.ok (storeGet sub svc.sessionStore)

/-- Modelled from the spec: `NodeOAuthClient.restore(userDid)` (the library is
not part of this repository) reads the stored session for the subject from
the Session Store (spec §4.4, `forSubject` reads the Session from the Session
Store).  Its read goes through the service's `sessionStore` callbacks, so it
propagates their outcome. -/
def clientRestore (sub : String) (svc : ServiceState) :
    Except String (Option String) :=
  clientSessionStoreGet sub svc

/-- `getAuthenticatedAgent` (oauth.ts): restores the session via the OAuth
client; a falsy session raises `No valid session found for user` inside the
`try`, and the `catch` rethrows every failure wrapped as
`Authentication failed: <message>`.  The returned agent is modelled by the
session blob it is bound to. -/
def getAuthenticatedAgent (userDid : String) (svc : ServiceState) :
    Except String String :=
  match clientRestore userDid svc with
  | Except.error e => Except.error ("Authentication failed: " ++ e)
  | Except.ok none =>
      Except.error "Authentication failed: No valid session found for user"
  | Except.ok (some session) => Except.ok session

/-- `hasValidSession` (oauth.ts): the method body over the awaited outcome of
`client.restore(userDid)` (`Except.error` models a rejected promise).  The
`try` returns `session !== null`; the `catch` swallows every failure and
returns `false`, so the method itself always resolves with a boolean —
`Except.ok` on every input. -/
def hasValidSession (restoreOutcome : Except String (Option String)) :
    Except String Bool :=
  match restoreOutcome with
  | Except.ok session => Except.ok session.isSome
  | Except.error _ => Except.ok false

/-- `logout` (oauth.ts): the method body over the outcome of the session-store
deletion it attempts (`this.sessionStore.delete(userDid)` on the service's own
`Map`).  The `try`/`catch` logs and swallows every failure — logout is best
effort and never fails visibly — so the method resolves on every outcome,
with the store updated only when the deletion succeeded. -/
def logoutCatch (deletion : Except String (KVStore String)) (svc : ServiceState) :
    Except String Unit × ServiceState :=
  match deletion with
  | Except.ok m => (Except.ok (), { svc with sessionStore := m })
  | Except.error _ => (Except.ok (), svc)

/-- `getSessionStats` (oauth.ts): the sizes of the service's own two `Map`s. -/
structure SessionStats where
  activeSessions : Nat
  stateEntries : Nat
  deriving DecidableEq, Repr

/-- `getSessionStats` (oauth.ts): `{ activeSessions: this.sessionStore.size,
stateEntries: this.stateStore.size }`. -/
def getSessionStats (svc : ServiceState) : SessionStats :=
  { activeSessions := svc.sessionStore.length, stateEntries := svc.stateStore.length }

/-- One public operation of the service, with the data the operation would
feed through the client's store callbacks. -/
inductive ServiceOp where
  | initiateLogin (stateKey internalState : String)
  | handleCallback (stateKey userDid session : String)
  | getAuthenticatedAgent (userDid : String)
  | hasValidSession (userDid : String)
  | logout (userDid : String)
  deriving DecidableEq, Repr

/-- Effect of one service operation on the service's own two `Map`s
(oauth.ts).  `initiateLogin` stores the request state through the client's
`stateStore.set` callback (spec §4.3: `authorize` writes the request state);
`handleCallback` reads, deletes and then stores the session through the
callbacks; both leave the maps unchanged whenever a callback throws (the
surrounding `try`/`catch` turns that into a failed result with no further
store access).  `getAuthenticatedAgent` and `hasValidSession` only read.
`logout` runs `this.sessionStore.delete(userDid)` — a class method, so `this`
IS the service instance and the deletion hits the service's own `Map`. -/
def applyOp (op : ServiceOp) (svc : ServiceState) : ServiceState :=
  match op with
  | ServiceOp.initiateLogin k st =>
      match clientStateStoreSet k st svc with
      | Except.ok svc' => svc'
      | Except.error _ => svc
  | ServiceOp.handleCallback k sub session =>
      match clientStateStoreGet k svc with
      | Except.error _ => svc
      | Except.ok none => svc
      | Except.ok (some _) =>
          match clientStateStoreDel k svc with
          | Except.error _ => svc
          | Except.ok svc₁ =>
              match clientSessionStoreSet sub session svc₁ with
              | Except.error _ => svc₁
              | Except.ok svc₂ => svc₂
  | ServiceOp.getAuthenticatedAgent _ => svc
  | ServiceOp.hasValidSession _ => svc
  | ServiceOp.logout userDid =>
      { svc with sessionStore := storeDelete userDid svc.sessionStore }

/-- A sequence of service operations run on a freshly constructed service. -/
def runOps (ops : List ServiceOp) : ServiceState :=
  ops.foldl (fun svc op => applyOp op svc) initialServiceState

/-- The fixed scope string hard-coded into `initiateLogin`'s `authorize` call
(oauth.ts): the method signature is `initiateLogin(handle = '', redirectUri?)`
and passes `scope: 'atproto transition:generic'` literally. -/
def initiateLoginScope : String := "atproto transition:generic"

/-- Options object passed to `client.authorize` by `initiateLogin` (oauth.ts):
the CSRF state key, the hard-coded scope, and `redirectUri` defaulting to
`publicUrl + '/'`. -/
structure AuthorizeOptions where
  state : String
  scope : String
  redirectUri : String
  deriving DecidableEq, Repr

/-- `initiateLogin` (oauth.ts): builds the `authorize` options from the state
key and the optional redirect override; the scope is not a parameter. -/
def initiateLoginOptions (publicUrl stateKey : String)
    (redirectUri : Option String) : AuthorizeOptions :=
  { state := stateKey
    scope := initiateLoginScope
    redirectUri := redirectUri.getD (publicUrl ++ "/") }

/-!
`handleCallback` (oauth.ts) and the cookie writers: the `BlueskyService`
facade's `handleOAuthCallback` (`src/lib/server/bluesky/index.ts`, embedded in
README_BSKY.md) and the root route's load function
(`src/routes/+page.server.ts`).
-/

/-- The session object produced by the OAuth client's `callback`: the subject
identifier (`session.sub`). -/
structure SessionInfo where
  sub : String
  deriving DecidableEq, Repr

/-- Profile data returned by `agent.getProfile` for the just-authenticated
subject. -/
structure ProfileData where
  handle : String
  displayName : Option String
  avatar : Option String
  description : Option String
  deriving DecidableEq, Repr

/-- The profile summary built into a successful callback result
(oauth.ts, `handleCallback`). -/
structure ProfileSummary where
  did : String
  handle : String
  displayName : String
  avatar : Option String
  description : Option String
  deriving DecidableEq, Repr

/-- The `OAuthCallbackResult` of `handleCallback` (oauth.ts / types.ts):
either a success carrying the subject DID and profile, or a failure carrying
the error message. -/
structure OAuthCallbackResult where
  success : Bool
  userDid : Option String
  profile : Option ProfileSummary
  error : Option String
  deriving DecidableEq, Repr

/-- `handleCallback` (oauth.ts): over the awaited outcomes of
`client.callback(params)` (the token exchange) and `agent.getProfile` (both
inside the same `try`).  Any rejection — including a profile-fetch failure
after a successful exchange — lands in the `catch`, which returns
`{ success: false, error }`.  On success the result carries the subject DID
and a profile whose display name falls back to the handle. -/
def handleCallback (callbackOutcome : Except String SessionInfo)
    (profileOutcome : Except String ProfileData) : OAuthCallbackResult :=
  match callbackOutcome with
  | Except.error e => { success := false, userDid := none, profile := none, error := some e }
  | Except.ok session =>
      match profileOutcome with
      | Except.error e =>
          { success := false, userDid := none, profile := none, error := some e }
      | Except.ok p =>
          { success := true
            userDid := some session.sub
            profile := some
              { did := session.sub
                handle := p.handle
                displayName := p.displayName.getD p.handle
                avatar := p.avatar
                description := p.description }
            error := none }

/-- Attributes of the `bsky_session` transport cookie. -/
structure CookieOptions where
  path : String
  httpOnly : Bool
  sameSite : String
  secure : Bool
  maxAge : Nat
  deriving DecidableEq, Repr

/-- Process environment relevant to the cookie writers. -/
inductive Env where
  | development
  | production
  deriving DecidableEq, Repr

/-- Cookie options written by the root route's load function
(`src/routes/+page.server.ts`): `secure` is the literal `false`, with the
comment `Set to true in production with HTTPS`; the environment is never
consulted. -/
def rootCallbackCookieOptions : CookieOptions :=
  { path := "/"
    httpOnly := true
    sameSite := "lax"
    secure := false
    maxAge := 60 * 60 * 24 * 7 }

/-- `handleOAuthCallback` of the `BlueskyService` facade (index.ts): sets the
`bsky_session` cookie only when `result.success && result.userDid`, with
`secure: process.env.NODE_ENV === 'production'` and a one-week `maxAge`. -/
def facadeCallbackCookie (result : OAuthCallbackResult) (env : Env) :
    Option (String × String × CookieOptions) :=
  if result.success && result.userDid.isSome then
    some ("bsky_session", result.userDid.getD "",
      { path := "/"
        httpOnly := true
        sameSite := "lax"
        secure := env = Env.production
        maxAge := 60 * 60 * 24 * 7 })
  else
    none

/-- `URLSearchParams` of the incoming request: ordered key-value pairs. -/
abbrev SearchParams : Type := List (String × String)

/-- `URLSearchParams.has`. -/
def paramsHas (q : SearchParams) (k : String) : Bool :=
  q.any (fun p => p.1 = k)

/-- `URLSearchParams.get`: first value for the key, or `none` (JS `null`). -/
def paramsGet (q : SearchParams) (k : String) : Option String :=
  (q.find? (fun p => p.1 = k)).map (fun p => p.2)

/-- `src/routes/+page.server.ts`: a request is a REAL OAuth callback exactly
when both the `code` and the `state` query parameters are present. -/
def isRealOAuthCallback (q : SearchParams) : Bool :=
  paramsHas q "code" && paramsHas q "state"

/-- Result of the root route's load function: the normal page data (with the
application-internal `error=oauth_failed` flag), a successful callback result
carrying the subject DID, the redirect target and the session cookie it set,
or the failure redirect back to home. -/
inductive LoadResult where
  | page (hasError : Bool)
  | callbackSuccess (userDid redirectTo : String)
      (cookie : String × String × CookieOptions)
  | redirectError (location : String)
  deriving DecidableEq, Repr

/-- The load function of `src/routes/+page.server.ts` over the awaited
outcome of `client.callback(params)`:  a non-callback request (missing `code`
or `state`) returns the normal page data — treating a lone
`error=oauth_failed` as the app's own marker, not an upstream OAuth error;
a real callback sets the `bsky_session` cookie for `session.sub` and reports
success, or redirects to `/?error=oauth_failed` on failure (no cookie). -/
def rootLoad (q : SearchParams) (callbackOutcome : Except String SessionInfo) :
    LoadResult :=
  if isRealOAuthCallback q then
    match callbackOutcome with
    | Except.ok session =>
        LoadResult.callbackSuccess session.sub "/dashboard"
          ("bsky_session", session.sub, rootCallbackCookieOptions)
    | Except.error _ => LoadResult.redirectError "/?error=oauth_failed"
  else
    LoadResult.page (paramsGet q "error" = some "oauth_failed")

/-- Whether a load result is the normal (non-callback) page result. -/
def isPageResult : LoadResult → Bool
  | LoadResult.page _ => true
  | _ => false

/-- Demo callback parameters of a successful callback: code and state present,
no error parameter. -/
def demoParamsOk : CallbackParams :=
  { error := none, code := some "auth-code-123", state := some "state-123" }

/-- Demo callback parameters of a denied callback:
`error=access_denied&state=state-123`. -/
def demoParamsDenied : CallbackParams :=
  { error := some "access_denied", code := none, state := some "state-123" }

/-- Demo token-exchange outcome. -/
def demoExchange : Except String ExchangeSuccess :=
  Except.ok { sub := "did:plc:abc", sessionData := "session-blob" }

end Bsky

namespace Bsky

theorem storeGet_storeDelete_self {α : Type} (k : String) (s : KVStore α) :
    storeGet k (storeDelete k s) = none := by
  induction s with
  | nil => rfl
  | cons hd tl ih =>
      obtain ⟨k', v⟩ := hd
      by_cases h : k' = k
      · simp only [storeDelete, if_pos h]
        exact ih
      · simp only [storeDelete, if_neg h, storeGet, if_neg h]
        exact ih

theorem storeDelete_idem {α : Type} (k : String) (s : KVStore α) :
    storeDelete k (storeDelete k s) = storeDelete k s := by
  induction s with
  | nil => rfl
  | cons hd tl ih =>
      obtain ⟨k', v⟩ := hd
      by_cases h : k' = k
      · simp only [storeDelete, if_pos h]
        exact ih
      · simp only [storeDelete, if_neg h]
        rw [ih]

/-- After a consuming `completeAuthorization` call the state store component is
exactly the original with the key deleted, whatever the exchange outcome. -/
theorem completeAuthorization_stateStore_after (k c : String)
    (st : AuthorizationRequestState) (stores : FlowStores)
    (p : CallbackParams) (ex : Except String ExchangeSuccess)
    (h₁ : p.state = some k) (h₂ : p.error = none) (h₃ : p.code = some c)
    (hk : storeGet k stores.stateStore = some st) :
    (completeAuthorization p ex stores).2.stateStore
      = storeDelete k stores.stateStore := by
  cases ex <;> simp [completeAuthorization, h₁, h₂, h₃, hk]

/-- A callback whose state key is absent from the State Store fails with
`invalidState`. -/
theorem completeAuthorization_invalidState (k c : String) (stores : FlowStores)
    (p : CallbackParams) (ex : Except String ExchangeSuccess)
    (h₁ : p.state = some k) (h₂ : p.error = none) (h₃ : p.code = some c)
    (hk : storeGet k stores.stateStore = none) :
    (completeAuthorization p ex stores).1 = Except.error FlowError.invalidState := by
  simp [completeAuthorization, h₁, h₂, h₃, hk]

/-- Claim C1: for every request key consumed by a `completeAuthorization` call
(whatever the token-exchange outcome), the key is no longer present in the
State Store afterwards, and a second callback reusing the same key fails with
the `invalidState` error kind. -/
theorem state_key_single_use (k c₁ c₂ : String) (st : AuthorizationRequestState)
    (stores : FlowStores) (p₁ p₂ : CallbackParams)
    (ex₁ ex₂ : Except String ExchangeSuccess)
    (h₁ : p₁.state = some k) (h₂ : p₁.error = none) (h₃ : p₁.code = some c₁)
    (h₄ : p₂.state = some k) (h₅ : p₂.error = none) (h₆ : p₂.code = some c₂)
    (hk : storeGet k stores.stateStore = some st) :
    storeGet k (completeAuthorization p₁ ex₁ stores).2.stateStore = none
    ∧ (completeAuthorization p₂ ex₂ (completeAuthorization p₁ ex₁ stores).2).1
        = Except.error FlowError.invalidState := by
  have hst : (completeAuthorization p₁ ex₁ stores).2.stateStore
      = storeDelete k stores.stateStore :=
    completeAuthorization_stateStore_after k c₁ st stores p₁ ex₁ h₁ h₂ h₃ hk
  have hnone : storeGet k (completeAuthorization p₁ ex₁ stores).2.stateStore = none := by
    rw [hst]
    exact storeGet_storeDelete_self k stores.stateStore
  exact ⟨hnone,
    completeAuthorization_invalidState k c₂ (completeAuthorization p₁ ex₁ stores).2
      p₂ ex₂ h₄ h₅ h₆ hnone⟩

/-- Witness for C1: key `state-123` held in the demo State Store is consumed
by a successful callback, after which a replayed callback with the same state
fails with `invalidState`. -/
theorem state_key_single_use_witness :
    demoParamsOk.state = some "state-123"
    ∧ demoParamsOk.error = none
    ∧ demoParamsOk.code = some "auth-code-123"
    ∧ storeGet "state-123" demoStores.stateStore = some demoReqState
    ∧ (storeGet "state-123"
          (completeAuthorization demoParamsOk demoExchange demoStores).2.stateStore
        = none
      ∧ (completeAuthorization demoParamsOk demoExchange
            (completeAuthorization demoParamsOk demoExchange demoStores).2).1
          = Except.error FlowError.invalidState) :=
  ⟨rfl, rfl, rfl, by decide,
   state_key_single_use "state-123" "auth-code-123" "auth-code-123" demoReqState
     demoStores demoParamsOk demoParamsOk demoExchange demoExchange
     rfl rfl rfl rfl rfl rfl (by decide)⟩

/-- Claim C2: a callback URL carrying an explicit error parameter together
with a valid state key fails with the `authorizationDenied` error kind carrying
that error verbatim (no retry: `completeAuthorization` is a single pass), and
the matching state entry is still consumed. -/
theorem denied_callback_consumed (k e : String) (st : AuthorizationRequestState)
    (stores : FlowStores) (p : CallbackParams) (ex : Except String ExchangeSuccess)
    (hp : p.error = some e) (hs : p.state = some k)
    (hk : storeGet k stores.stateStore = some st) :
    (completeAuthorization p ex stores).1
      = Except.error (FlowError.authorizationDenied e)
    ∧ storeGet k (completeAuthorization p ex stores).2.stateStore = none := by
  constructor
  · simp [completeAuthorization, hp, hs]
  · simp [completeAuthorization, hp, hs, storeGet_storeDelete_self]

/-- Witness for C2: `error=access_denied&state=state-123` against the demo
State Store holding `state-123`. -/
theorem denied_callback_consumed_witness :
    demoParamsDenied.error = some "access_denied"
    ∧ demoParamsDenied.state = some "state-123"
    ∧ storeGet "state-123" demoStores.stateStore = some demoReqState
    ∧ ((completeAuthorization demoParamsDenied demoExchange demoStores).1
        = Except.error (FlowError.authorizationDenied "access_denied")
      ∧ storeGet "state-123"
          (completeAuthorization demoParamsDenied demoExchange demoStores).2.stateStore
        = none) :=
  ⟨rfl, rfl, by decide,
   denied_callback_consumed "state-123" "access_denied" demoReqState demoStores
     demoParamsDenied demoExchange rfl rfl (by decide)⟩

/-- Claim C3 (failing input evaluated): after `logout` for `did:plc:abc`,
`hasValidSession` does return `false`, but `getAuthenticatedAgent` fails with
`Authentication failed:` wrapping the `TypeError` thrown by the client's
broken `sessionStore` callbacks — not with the `No valid session found`
(NoSessionError) kind the claim and the service's own tests state. -/
theorem logout_then_forSubject_wrong_error_kind :
    hasValidSession (clientRestore "did:plc:abc"
        (applyOp (ServiceOp.logout "did:plc:abc") initialServiceState))
      = Except.ok false
    ∧ getAuthenticatedAgent "did:plc:abc"
        (applyOp (ServiceOp.logout "did:plc:abc") initialServiceState)
      = Except.error ("Authentication failed: " ++ typeErrorUndefined "get")
    ∧ getAuthenticatedAgent "did:plc:abc"
        (applyOp (ServiceOp.logout "did:plc:abc") initialServiceState)
      ≠ Except.error "Authentication failed: No valid session found for user" := by
  refine ⟨rfl, rfl, ?_⟩
  intro h
  rw [show getAuthenticatedAgent "did:plc:abc"
        (applyOp (ServiceOp.logout "did:plc:abc") initialServiceState)
      = Except.error ("Authentication failed: " ++ typeErrorUndefined "get") from rfl] at h
  simp only [Except.error.injEq] at h
  exact absurd h (by decide)

/-- Claim C4 (failing input evaluated): on a successful real callback the root
route sets the `bsky_session` cookie carrying the subject DID with HTTP-only,
SameSite lax, path `/` and a one-week lifetime, but with `secure := false`
regardless of the environment; no cookie is set on a failed callback; the
`BlueskyService` facade path does set `secure` exactly in production. -/
theorem root_callback_cookie_not_secure :
    rootLoad [("code", "auth-code-123"), ("state", "state-123")]
        (Except.ok { sub := "did:plc:abc" })
      = LoadResult.callbackSuccess "did:plc:abc" "/dashboard"
          ("bsky_session", "did:plc:abc", rootCallbackCookieOptions)
    ∧ rootCallbackCookieOptions.secure = false
    ∧ rootCallbackCookieOptions.httpOnly = true
    ∧ rootCallbackCookieOptions.sameSite = "lax"
    ∧ rootCallbackCookieOptions.path = "/"
    ∧ rootCallbackCookieOptions.maxAge = 60 * 60 * 24 * 7
    ∧ rootLoad [("code", "auth-code-123"), ("state", "state-123")]
        (Except.error "exchange failed")
      = LoadResult.redirectError "/?error=oauth_failed"
    ∧ facadeCallbackCookie
        { success := true, userDid := some "did:plc:abc", profile := none, error := none }
        Env.production
      = some ("bsky_session", "did:plc:abc",
          { path := "/", httpOnly := true, sameSite := "lax", secure := true,
            maxAge := 60 * 60 * 24 * 7 })
    ∧ facadeCallbackCookie
        { success := true, userDid := some "did:plc:abc", profile := none, error := none }
        Env.development
      = some ("bsky_session", "did:plc:abc",
          { path := "/", httpOnly := true, sameSite := "lax", secure := false,
            maxAge := 60 * 60 * 24 * 7 })
    ∧ (∀ (r : OAuthCallbackResult) (env : Env),
        r.success = false → facadeCallbackCookie r env = none) := by
  refine ⟨by decide, rfl, rfl, rfl, rfl, rfl, by decide, by decide, by decide, ?_⟩
  intro r env hr
  simp [facadeCallbackCookie, hr]

/-- Witness for C4: the facade sets no cookie for a failed result. -/
theorem root_callback_cookie_not_secure_witness :
    ({ success := false, userDid := none, profile := none,
       error := some "x" } : OAuthCallbackResult).success = false
    ∧ facadeCallbackCookie
        { success := false, userDid := none, profile := none, error := some "x" }
        Env.production
      = none :=
  ⟨rfl,
   (root_callback_cookie_not_secure.2.2.2.2.2.2.2.2.2)
     { success := false, userDid := none, profile := none, error := some "x" }
     Env.production rfl⟩

/-- Claim C5: `hasValidSession` is a non-throwing probe — it resolves with a
boolean on every restore outcome, a found session yields `true`, an absent
one `false`, and any underlying error collapses to `false` rather than being
propagated; on the service's actual wiring it always resolves `false`. -/
theorem hasValidSession_never_throws :
    (∀ restoreOutcome : Except String (Option String),
        ∃ b : Bool, hasValidSession restoreOutcome = Except.ok b)
    ∧ (∀ e : String, hasValidSession (Except.error e) = Except.ok false)
    ∧ (∀ s : Option String, hasValidSession (Except.ok s) = Except.ok s.isSome)
    ∧ (∀ (userDid : String) (svc : ServiceState),
        hasValidSession (clientRestore userDid svc) = Except.ok false) := by
  refine ⟨?_, fun e => rfl, fun s => rfl, fun userDid svc => rfl⟩
  intro o
  cases o with
  | ok s => exact ⟨s.isSome, rfl⟩
  | error e => exact ⟨false, rfl⟩

/-- Claim C6 counterexample: a callback whose token exchange succeeds for
`did:plc:test123` but whose profile fetch fails is reported as a failure
(`success = false`, no subject identifier), contradicting the claim that it
still returns the subject identifier as a success. -/
theorem profile_failure_fails_handleCallback :
    handleCallback (Except.ok { sub := "did:plc:test123" })
        (Except.error "profile fetch failed")
      = { success := false, userDid := none, profile := none,
          error := some "profile fetch failed" }
    ∧ (handleCallback (Except.ok { sub := "did:plc:test123" })
          (Except.error "profile fetch failed")).success ≠ true :=
  ⟨rfl, by decide⟩

/-- Claim C6 as amended: whenever the token exchange succeeds but the profile
fetch fails, `handleCallback` returns a failed result carrying the
profile-fetch error and no subject identifier — the profile fetch is required
for a successful result, not a best-effort enrichment. -/
theorem handleCallback_profile_failure_result :
    ∀ (session : SessionInfo) (e : String),
      handleCallback (Except.ok session) (Except.error e)
        = { success := false, userDid := none, profile := none, error := some e } :=
  fun _ _ => rfl

/-- Claim C7 (failing input evaluated): `initiateLogin` has no scope
parameter; the `authorize` options it builds — here for the inputs of the
service's own scope-override test — always carry the fixed scope
`atproto transition:generic`, never a caller-supplied `custom:scope`. -/
theorem initiateLogin_scope_fixed :
    (initiateLoginOptions "http://localhost:5173" "mock-uuid-12345"
        (some "https://myapp.com/callback")).scope = "atproto transition:generic"
    ∧ (initiateLoginOptions "http://localhost:5173" "mock-uuid-12345"
        (some "https://myapp.com/callback")).scope ≠ "custom:scope"
    ∧ initiateLoginOptions "http://localhost:5173" "mock-uuid-12345"
        (some "https://myapp.com/callback")
      = { state := "mock-uuid-12345", scope := "atproto transition:generic",
          redirectUri := "https://myapp.com/callback" }
    ∧ (∀ (publicUrl stateKey : String) (redirectUri : Option String),
        (initiateLoginOptions publicUrl stateKey redirectUri).scope
          = "atproto transition:generic") := by
  exact ⟨rfl, by decide, rfl, fun _ _ _ => rfl⟩

/-- Claim C8: the root route treats a request as a genuine OAuth callback
exactly when both `code` and `state` are present — the normal page result is
returned otherwise — and a URL carrying only the application-internal
`error=oauth_failed` marker yields the normal page result with the error
flag, not OAuth error handling. -/
theorem real_callback_detection :
    (∀ (q : SearchParams) (co : Except String SessionInfo),
        isPageResult (rootLoad q co) = !(isRealOAuthCallback q))
    ∧ (∀ q : SearchParams,
        isRealOAuthCallback q = (paramsHas q "code" && paramsHas q "state"))
    ∧ (∀ co : Except String SessionInfo,
        rootLoad [("error", "oauth_failed")] co = LoadResult.page true) := by
  refine ⟨?_, fun q => rfl, fun co => rfl⟩
  intro q co
  cases hb : isRealOAuthCallback q with
  | false => simp [rootLoad, hb, isPageResult]
  | true =>
      cases co with
      | ok s => simp [rootLoad, hb, isPageResult]
      | error e => simp [rootLoad, hb, isPageResult]

/-- Claim C9: `logout` resolves (raises no error) on every outcome of the
underlying Session Store deletion, and running the service's `logout` twice
in a row for the same subject leaves the same state as running it once — in
particular the second call raises no error either. -/
theorem logout_idempotent_never_fails :
    (∀ (deletion : Except String (KVStore String)) (svc : ServiceState),
        (logoutCatch deletion svc).1 = Except.ok ())
    ∧ (∀ (userDid : String) (svc : ServiceState),
        applyOp (ServiceOp.logout userDid) (applyOp (ServiceOp.logout userDid) svc)
          = applyOp (ServiceOp.logout userDid) svc) := by
  constructor
  · intro deletion svc
    cases deletion with
    | ok m => rfl
    | error e => rfl
  · intro userDid svc
    simp [applyOp, storeDelete_idem]

/-- Any single service operation keeps both of the service's own maps empty:
the client store callbacks throw before writing (unbound `this`), reads do
not mutate, and `logout` only deletes. -/
theorem applyOp_preserves_empty (op : ServiceOp) (svc : ServiceState)
    (h₁ : svc.stateStore = []) (h₂ : svc.sessionStore = []) :
    (applyOp op svc).stateStore = [] ∧ (applyOp op svc).sessionStore = [] := by
  cases op with
  | initiateLogin k st => exact ⟨h₁, h₂⟩
  | handleCallback k sub session => exact ⟨h₁, h₂⟩
  | getAuthenticatedAgent userDid => exact ⟨h₁, h₂⟩
  | hasValidSession userDid => exact ⟨h₁, h₂⟩
  | logout userDid =>
      refine ⟨h₁, ?_⟩
      show storeDelete userDid svc.sessionStore = []
      rw [h₂]
      rfl

/-- Claim C10: after any sequence of service operations on a freshly
constructed `BlueskyOAuthService`, the service's own `stateStore` and
`sessionStore` maps are still empty — the store callbacks handed to
`NodeOAuthClient` bind `this` to the callback object literal, so no operation
ever inserts into the service's maps — and `getSessionStats` reports zero
active sessions and zero state entries. -/
theorem service_maps_always_empty :
    ∀ ops : List ServiceOp,
      (runOps ops).stateStore = []
      ∧ (runOps ops).sessionStore = []
      ∧ getSessionStats (runOps ops)
          = { activeSessions := 0, stateEntries := 0 } := by
  have key : ∀ (ops : List ServiceOp) (svc : ServiceState),
      svc.stateStore = [] → svc.sessionStore = [] →
      (ops.foldl (fun s op => applyOp op s) svc).stateStore = []
      ∧ (ops.foldl (fun s op => applyOp op s) svc).sessionStore = [] := by
    intro ops
    induction ops with
    | nil => exact fun svc h₁ h₂ => ⟨h₁, h₂⟩
    | cons op rest ih =>
        intro svc h₁ h₂
        have h := applyOp_preserves_empty op svc h₁ h₂
        exact ih (applyOp op svc) h.1 h.2
  intro ops
  obtain ⟨h₁, h₂⟩ := key ops initialServiceState rfl rfl
  have h₁' : (runOps ops).stateStore = [] := h₁
  have h₂' : (runOps ops).sessionStore = [] := h₂
  refine ⟨h₁', h₂', ?_⟩
  simp [getSessionStats, h₁', h₂']

end Bsky
